import Mathlib

/-!
Verification of the rs64-rom cartridge ROM library: layout constants, the
64-byte header model with big-endian serialization, byte-swap detection and
in-place conversion, and the two-word boot checksum over the fixed 1 MiB
window.  All machine integers are modelled as `Nat` with explicit reduction
modulo `2^32` (or `2^16`/`2^8`) where the source wraps; byte buffers are
`List Nat`; the in-place byte-swap mutation is modelled by returning the
final buffer state together with the result.
-/

/-! ## Layout constants (from the source) -/

def DEFAULT_CART_TIMING : Nat := 0x80371240

def DEFAULT_CLOCK_RATE : Nat := 0x0000000f

def HEADER_NAME_LEN : Nat := 20

def HEADER_START : Nat := 0

def HEADER_LEN : Nat := 64

def HEADER_END : Nat := HEADER_START + HEADER_LEN

def BOOTCODE_START : Nat := HEADER_LEN

def BOOTCODE_LEN : Nat := 4096 - HEADER_LEN

def BOOTCODE_END : Nat := BOOTCODE_START + BOOTCODE_LEN

def LOAD_START : Nat := HEADER_LEN + BOOTCODE_LEN

def LOAD_LEN : Nat := 0x100000

def ROM_LEN : Nat := HEADER_LEN + BOOTCODE_LEN + LOAD_LEN

/-! ## Byte swapping -/

inductive ByteSwapping where
  | Native : ByteSwapping
  | U16LittleEndian : ByteSwapping
deriving DecidableEq, Repr

/-- `detect_swapping` from the source: a buffer shorter than 4 bytes is
unrecognized; otherwise the first four bytes are compared against the two
magic prefixes. -/
def detect_swapping (buffer : List Nat) : Option ByteSwapping :=
  if buffer.length < 4 then
    none
  else if buffer.getD 0 0 = 0x80 ∧ buffer.getD 1 0 = 0x37 ∧
      buffer.getD 2 0 = 0x12 ∧ buffer.getD 3 0 = 0x40 then
    some ByteSwapping.Native
  else if buffer.getD 0 0 = 0x37 ∧ buffer.getD 1 0 = 0x80 ∧
      buffer.getD 2 0 = 0x40 ∧ buffer.getD 3 0 = 0x12 then
    some ByteSwapping.U16LittleEndian
  else
    none

/-- The in-place pairwise swap loop of `swap_cart_to`: for each 2-byte unit,
exchange byte 0 and byte 1. -/
def swap_pairs : List Nat → List Nat
  | b0 :: b1 :: rest => b1 :: b0 :: swap_pairs rest
  | rest => rest

/-- `swap_cart_to` from the source.  The returned pair is the final buffer
state (the source mutates the buffer in place) together with the result. -/
def swap_cart_to (new_swapping : ByteSwapping) (buffer : List Nat) :
    List Nat × Except String Unit :=
  match detect_swapping buffer with
  | none => (buffer, Except.error "Unknown original byte swapping")
  | some original_swapping =>
    if buffer.length % 2 ≠ 0 then
      (buffer, Except.error "Not an even length for swapping")
    else if original_swapping = new_swapping then
      (buffer, Except.ok ())
    else
      (swap_pairs buffer, Except.ok ())

/-! ## Basic facts about swapping -/

theorem swap_pairs_swap_pairs : ∀ l : List Nat, swap_pairs (swap_pairs l) = l
  | [] => rfl
  | [b] => rfl
  | b0 :: b1 :: rest => by
    simp [swap_pairs, swap_pairs_swap_pairs rest]

theorem swap_pairs_length : ∀ l : List Nat, (swap_pairs l).length = l.length
  | [] => rfl
  | [b] => rfl
  | b0 :: b1 :: rest => by
    simp [swap_pairs, swap_pairs_length rest]

/-- The toggled value of a byte ordering. -/
def ByteSwapping.other : ByteSwapping → ByteSwapping
  | ByteSwapping.Native => ByteSwapping.U16LittleEndian
  | ByteSwapping.U16LittleEndian => ByteSwapping.Native

theorem detect_swapping_eq_some (buffer : List Nat) (s : ByteSwapping)
    (h : detect_swapping buffer = some s) :
    4 ≤ buffer.length ∧
      ((s = ByteSwapping.Native ∧ buffer.getD 0 0 = 0x80 ∧ buffer.getD 1 0 = 0x37 ∧
          buffer.getD 2 0 = 0x12 ∧ buffer.getD 3 0 = 0x40) ∨
        (s = ByteSwapping.U16LittleEndian ∧ buffer.getD 0 0 = 0x37 ∧ buffer.getD 1 0 = 0x80 ∧
          buffer.getD 2 0 = 0x40 ∧ buffer.getD 3 0 = 0x12)) := by
  unfold detect_swapping at h
  split at h
  · exact absurd h (by simp)
  · split at h
    · rename_i hlen hmagic
      refine ⟨by omega, Or.inl ⟨by injection h with h2; exact h2.symm, hmagic.1, hmagic.2.1,
        hmagic.2.2.1, hmagic.2.2.2⟩⟩
    · split at h
      · rename_i hlen hn hmagic
        refine ⟨by omega, Or.inr ⟨by injection h with h2; exact h2.symm, hmagic.1, hmagic.2.1,
          hmagic.2.2.1, hmagic.2.2.2⟩⟩
      · exact absurd h (by simp)

theorem exists_four_prefix (buffer : List Nat) (h : 4 ≤ buffer.length) :
    ∃ b0 b1 b2 b3 rest, buffer = b0 :: b1 :: b2 :: b3 :: rest := by
  match buffer with
  | b0 :: b1 :: b2 :: b3 :: rest => exact ⟨b0, b1, b2, b3, rest, rfl⟩
  | [] | [_] | [_, _] | [_, _, _] => simp at h

/-- Swapping a buffer with a recognized prefix toggles the detected ordering. -/
theorem detect_swapping_swap_pairs (buffer : List Nat) (s : ByteSwapping)
    (h : detect_swapping buffer = some s) :
    detect_swapping (swap_pairs buffer) = some s.other := by
  obtain ⟨hlen, hcases⟩ := detect_swapping_eq_some buffer s h
  obtain ⟨b0, b1, b2, b3, rest, rfl⟩ := exists_four_prefix buffer hlen
  have hsw : swap_pairs (b0 :: b1 :: b2 :: b3 :: rest) =
      b1 :: b0 :: b3 :: b2 :: swap_pairs rest := by
    simp [swap_pairs]
  rcases hcases with ⟨hs, h0, h1, h2, h3⟩ | ⟨hs, h0, h1, h2, h3⟩ <;>
    subst hs <;>
    simp only [List.getD, List.getElem?_cons_zero, List.getElem?_cons_succ,
      Option.getD_some] at h0 h1 h2 h3 <;>
    subst h0 h1 h2 h3 <;>
    simp [detect_swapping, hsw, ByteSwapping.other]

theorem ByteSwapping.other_ne (s : ByteSwapping) : s.other ≠ s := by
  cases s <;> simp [ByteSwapping.other]

theorem detect_swapping_cons (b0 b1 b2 b3 : Nat) (rest : List Nat) :
    detect_swapping (b0 :: b1 :: b2 :: b3 :: rest) =
      if b0 = 0x80 ∧ b1 = 0x37 ∧ b2 = 0x12 ∧ b3 = 0x40 then
        some ByteSwapping.Native
      else if b0 = 0x37 ∧ b1 = 0x80 ∧ b2 = 0x40 ∧ b3 = 0x12 then
        some ByteSwapping.U16LittleEndian
      else
        none := by
  have hnot : ¬ (b0 :: b1 :: b2 :: b3 :: rest).length < 4 := by simp
  simp [detect_swapping, hnot]

/-! Branch characterizations of `swap_cart_to`. -/

theorem swap_cart_to_none {buffer : List Nat} (target : ByteSwapping)
    (hd : detect_swapping buffer = none) :
    swap_cart_to target buffer = (buffer, Except.error "Unknown original byte swapping") := by
  unfold swap_cart_to
  rw [hd]

theorem swap_cart_to_odd {buffer : List Nat} {orig : ByteSwapping} (target : ByteSwapping)
    (hd : detect_swapping buffer = some orig) (he : buffer.length % 2 ≠ 0) :
    swap_cart_to target buffer = (buffer, Except.error "Not an even length for swapping") := by
  unfold swap_cart_to
  rw [hd]
  simp [he]

theorem swap_cart_to_same {buffer : List Nat} {target : ByteSwapping}
    (hd : detect_swapping buffer = some target) (he : buffer.length % 2 = 0) :
    swap_cart_to target buffer = (buffer, Except.ok ()) := by
  unfold swap_cart_to
  rw [hd]
  simp [he]

theorem swap_cart_to_swapped {buffer : List Nat} {orig : ByteSwapping} (target : ByteSwapping)
    (hd : detect_swapping buffer = some orig) (he : buffer.length % 2 = 0)
    (hne : orig ≠ target) :
    swap_cart_to target buffer = (swap_pairs buffer, Except.ok ()) := by
  unfold swap_cart_to
  rw [hd]
  simp [he, hne]

/-- C4: detection is decided exactly by the first four bytes. -/
theorem claim_C4_detect_swapping (buffer : List Nat) :
    (buffer.length < 4 → detect_swapping buffer = none) ∧
    (4 ≤ buffer.length →
      (detect_swapping buffer = some ByteSwapping.Native ↔
          buffer.take 4 = [0x80, 0x37, 0x12, 0x40]) ∧
      (detect_swapping buffer = some ByteSwapping.U16LittleEndian ↔
          buffer.take 4 = [0x37, 0x80, 0x40, 0x12]) ∧
      (buffer.take 4 ≠ [0x80, 0x37, 0x12, 0x40] → buffer.take 4 ≠ [0x37, 0x80, 0x40, 0x12] →
          detect_swapping buffer = none)) := by
  constructor
  · intro hlen
    simp [detect_swapping, hlen]
  · intro hlen
    obtain ⟨b0, b1, b2, b3, rest, rfl⟩ := exists_four_prefix buffer hlen
    rw [detect_swapping_cons]
    have htake : (b0 :: b1 :: b2 :: b3 :: rest).take 4 = [b0, b1, b2, b3] := rfl
    rw [htake]
    split_ifs with h1 h2
    · rcases h1 with ⟨rfl, rfl, rfl, rfl⟩
      exact ⟨by simp, by simp, fun hc _ => absurd rfl hc⟩
    · rcases h2 with ⟨rfl, rfl, rfl, rfl⟩
      exact ⟨by simp, by simp, fun _ hc => absurd rfl hc⟩
    · refine ⟨⟨fun h => by simp at h, fun h => ?_⟩, ⟨fun h => by simp at h, fun h => ?_⟩,
        fun _ _ => rfl⟩
      · exfalso
        simp only [List.cons.injEq, and_true] at h
        exact h1 ⟨h.1, h.2.1, h.2.2.1, h.2.2.2⟩
      · exfalso
        simp only [List.cons.injEq, and_true] at h
        exact h2 ⟨h.1, h.2.1, h.2.2.1, h.2.2.2⟩

/-- Witness that C4 applies to concrete buffers. -/
theorem claim_C4_detect_swapping_witness :
    detect_swapping [0x80, 0x37, 0x12, 0x40, 0x99] = some ByteSwapping.Native :=
  ((claim_C4_detect_swapping [0x80, 0x37, 0x12, 0x40, 0x99]).2 (by decide)).1.mpr (by decide)

/-- C5 counterexample: the odd-length buffer `[0,0,0,0,0]` does not fail with
the even-length error (its prefix is unrecognized, so detection fails first). -/
theorem claim_C5_cex :
    (swap_cart_to ByteSwapping.Native [0, 0, 0, 0, 0]).2 ≠
      Except.error "Not an even length for swapping" := by
  rw [swap_cart_to_none ByteSwapping.Native (by simp [detect_swapping])]
  simp

/-- C5 (amended): an odd-length buffer with a recognized prefix fails with the
even-length error and is left unchanged; with an unrecognized prefix the
unknown-swapping error is produced instead. -/
theorem claim_C5_amended (buffer : List Nat) (target : ByteSwapping)
    (hodd : buffer.length % 2 = 1) :
    ((detect_swapping buffer).isSome →
      swap_cart_to target buffer = (buffer, Except.error "Not an even length for swapping")) ∧
    (detect_swapping buffer = none →
      swap_cart_to target buffer = (buffer, Except.error "Unknown original byte swapping")) := by
  constructor
  · intro hsome
    cases hd : detect_swapping buffer with
    | none => rw [hd] at hsome; simp at hsome
    | some s => exact swap_cart_to_odd target hd (by omega)
  · intro hnone
    exact swap_cart_to_none target hnone

/-- Witness for the amended C5 at a concrete recognized odd-length buffer. -/
theorem claim_C5_amended_witness :
    swap_cart_to ByteSwapping.Native [0x80, 0x37, 0x12, 0x40, 0] =
      ([0x80, 0x37, 0x12, 0x40, 0], Except.error "Not an even length for swapping") :=
  (claim_C5_amended [0x80, 0x37, 0x12, 0x40, 0] ByteSwapping.Native (by decide)).1 (by decide)

/-- C7: converting to the ordering already detected is a successful no-op. -/
theorem claim_C7_noop (buffer : List Nat) (target : ByteSwapping)
    (hd : detect_swapping buffer = some target) (he : buffer.length % 2 = 0) :
    swap_cart_to target buffer = (buffer, Except.ok ()) :=
  swap_cart_to_same hd he

/-- Witness for C7 at a concrete Native buffer. -/
theorem claim_C7_noop_witness :
    swap_cart_to ByteSwapping.Native [0x80, 0x37, 0x12, 0x40] =
      ([0x80, 0x37, 0x12, 0x40], Except.ok ()) :=
  claim_C7_noop [0x80, 0x37, 0x12, 0x40] ByteSwapping.Native (by decide) (by decide)

/-- C3 counterexample: a Native buffer converted first to `Native` (a no-op)
and then to `U16LittleEndian` ends up byte-swapped, not restored, although
both conversions succeed.  The two alternations are therefore not
interchangeable, contrary to the claim. -/
theorem claim_C3_cex :
    (swap_cart_to ByteSwapping.Native [0x80, 0x37, 0x12, 0x40]).2 = Except.ok () ∧
    (swap_cart_to ByteSwapping.U16LittleEndian
        (swap_cart_to ByteSwapping.Native [0x80, 0x37, 0x12, 0x40]).1).2 = Except.ok () ∧
    (swap_cart_to ByteSwapping.U16LittleEndian
        (swap_cart_to ByteSwapping.Native [0x80, 0x37, 0x12, 0x40]).1).1 ≠
      [0x80, 0x37, 0x12, 0x40] :=
  ⟨rfl, rfl, by decide⟩

/-- C3 (amended): for a recognized even-length buffer detected as `a`,
converting to the opposite ordering and then back to `a` restores the buffer
exactly. -/
theorem claim_C3_amended (buffer : List Nat) (a b : ByteSwapping)
    (hd : detect_swapping buffer = some a) (he : buffer.length % 2 = 0) (hne : b ≠ a) :
    (swap_cart_to a (swap_cart_to b buffer).1).1 = buffer := by
  rw [swap_cart_to_swapped b hd he (fun h => hne h.symm)]
  have hd2 : detect_swapping (swap_pairs buffer) = some a.other :=
    detect_swapping_swap_pairs buffer a hd
  have he2 : (swap_pairs buffer).length % 2 = 0 := by
    rw [swap_pairs_length]; exact he
  rw [swap_cart_to_swapped a hd2 he2 (ByteSwapping.other_ne a), swap_pairs_swap_pairs]

/-- Witness for the amended C3 at a concrete Native buffer. -/
theorem claim_C3_amended_witness :
    (swap_cart_to ByteSwapping.Native
        (swap_cart_to ByteSwapping.U16LittleEndian [0x80, 0x37, 0x12, 0x40]).1).1 =
      [0x80, 0x37, 0x12, 0x40] :=
  claim_C3_amended [0x80, 0x37, 0x12, 0x40] ByteSwapping.Native ByteSwapping.U16LittleEndian
    (by decide) (by decide) (by decide)

/-- C10: a successful conversion leaves the buffer detected as the requested
target ordering. -/
theorem claim_C10_detect_after_swap (buffer : List Nat) (target : ByteSwapping)
    (hok : (swap_cart_to target buffer).2 = Except.ok ()) :
    detect_swapping (swap_cart_to target buffer).1 = some target := by
  cases hd : detect_swapping buffer with
  | none =>
    rw [swap_cart_to_none target hd] at hok
    simp at hok
  | some orig =>
    by_cases he : buffer.length % 2 = 0
    · by_cases hsame : orig = target
      · subst hsame
        rw [swap_cart_to_same hd he]
        exact hd
      · rw [swap_cart_to_swapped target hd he hsame]
        have hother : orig.other = target := by
          cases orig <;> cases target <;> first | rfl | exact absurd rfl hsame
        rw [detect_swapping_swap_pairs buffer orig hd, hother]
    · rw [swap_cart_to_odd target hd he] at hok
      simp at hok

/-- Witness for C10 at a concrete Native buffer converted to U16LittleEndian. -/
theorem claim_C10_detect_after_swap_witness :
    detect_swapping (swap_cart_to ByteSwapping.U16LittleEndian [0x80, 0x37, 0x12, 0x40]).1 =
      some ByteSwapping.U16LittleEndian :=
  claim_C10_detect_after_swap [0x80, 0x37, 0x12, 0x40] ByteSwapping.U16LittleEndian rfl

/-! ## Checksum engine -/

inductive ChecksumError where
  | NotLongEnough : ChecksumError
  | ErrorReadingBuffer : ChecksumError
deriving DecidableEq, Repr

def CHECKSUM_START : Nat := BOOTCODE_END

def CHECKSUM_LENGTH : Nat := LOAD_LEN

def CHECKSUM_END : Nat := CHECKSUM_START + CHECKSUM_LENGTH

def CHECKSUM_START_VALUE : Nat := 0xf8ca4ddc

/-- `u32::rotate_left` for a 32-bit value and a rotation amount below 32. -/
def rotl32 (x n : Nat) : Nat :=
  ((x <<< n) ||| (x >>> (32 - n))) % 4294967296

/-- The six 32-bit accumulators `t1..t6` of the checksum loop. -/
structure ChecksumState where
  t1 : Nat
  t2 : Nat
  t3 : Nat
  t4 : Nat
  t5 : Nat
  t6 : Nat
deriving DecidableEq, Repr

def initState : ChecksumState :=
  ⟨CHECKSUM_START_VALUE, CHECKSUM_START_VALUE, CHECKSUM_START_VALUE,
    CHECKSUM_START_VALUE, CHECKSUM_START_VALUE, CHECKSUM_START_VALUE⟩

/-- One iteration of the checksum loop body, exactly as in the source
(`wrapping_add` is addition modulo `2^32`, `t4 += 1` is a `u32` addition). -/
def checksum_step (s : ChecksumState) (c1 : Nat) : ChecksumState :=
  let k1 := (s.t6 + c1) % 4294967296
  let t4 := if k1 < s.t6 then (s.t4 + 1) % 4294967296 else s.t4
  let t6 := k1
  let t3 := s.t3 ^^^ c1
  let k2 := c1 &&& 0x1f
  let k1r := rotl32 c1 k2
  let t5 := (s.t5 + k1r) % 4294967296
  let t2 := if c1 < s.t2 then s.t2 ^^^ k1r else s.t2 ^^^ (t6 ^^^ c1)
  let t1 := (s.t1 + (c1 ^^^ t5)) % 4294967296
  ⟨t1, t2, t3, t4, t5, t6⟩

/-- The big-endian `u32` at byte offset `pos` of a buffer. -/
def word_at (buf : List Nat) (pos : Nat) : Nat :=
  buf.getD pos 0 * 0x1000000 + buf.getD (pos + 1) 0 * 0x10000 +
    buf.getD (pos + 2) 0 * 0x100 + buf.getD (pos + 3) 0

/-- `Cursor::read_u32::<BigEndian>`: succeeds exactly when four bytes remain. -/
def read_u32_be (buf : List Nat) (pos : Nat) : Option Nat :=
  if pos + 4 ≤ buf.length then some (word_at buf pos) else none

/-- The `for` loop of `calculate_cart_checksum`: `n` remaining iterations,
reading from `slice` at cursor position `pos`. -/
def checksum_loop : Nat → List Nat → Nat → ChecksumState → Except ChecksumError ChecksumState
  | 0, _, _, s => Except.ok s
  | n + 1, slice, pos, s =>
    match read_u32_be slice pos with
    | none => Except.error ChecksumError.ErrorReadingBuffer
    | some c1 => checksum_loop n slice (pos + 4) (checksum_step s c1)

/-- `calculate_cart_checksum` from the source. -/
def calculate_cart_checksum (buffer : List Nat) : Except ChecksumError (Nat × Nat) :=
  if buffer.length < CHECKSUM_END then
    Except.error ChecksumError.NotLongEnough
  else
    match checksum_loop (CHECKSUM_LENGTH / 4) ((buffer.drop CHECKSUM_START).take CHECKSUM_LENGTH)
        0 initState with
    | Except.error e => Except.error e
    | Except.ok s => Except.ok (s.t6 ^^^ s.t4 ^^^ s.t3, s.t5 ^^^ s.t2 ^^^ s.t1)

/-! ## The loop never fails on a length-validated window -/

/-- The total function computed by the loop when every read is in bounds. -/
def words_fold (slice : List Nat) : Nat → Nat → ChecksumState → ChecksumState
  | 0, _, s => s
  | n + 1, pos, s => words_fold slice n (pos + 4) (checksum_step s (word_at slice pos))

theorem checksum_loop_ok (slice : List Nat) :
    ∀ (n pos : Nat) (s : ChecksumState), pos + 4 * n ≤ slice.length →
      checksum_loop n slice pos s = Except.ok (words_fold slice n pos s) := by
  intro n
  induction n with
  | zero => intro pos s _; rfl
  | succ m ih =>
    intro pos s h
    have hr : read_u32_be slice pos = some (word_at slice pos) := by
      unfold read_u32_be
      rw [if_pos (by omega)]
    show (match read_u32_be slice pos with
      | none => Except.error ChecksumError.ErrorReadingBuffer
      | some c1 => checksum_loop m slice (pos + 4) (checksum_step s c1)) = _
    rw [hr]
    show checksum_loop m slice (pos + 4) _ = _
    rw [ih (pos + 4) _ (by omega)]
    rfl

theorem slice_length (buffer : List Nat) (h : CHECKSUM_END ≤ buffer.length) :
    ((buffer.drop CHECKSUM_START).take CHECKSUM_LENGTH).length = CHECKSUM_LENGTH := by
  rw [List.length_take, List.length_drop]
  have h2 : CHECKSUM_END = CHECKSUM_START + CHECKSUM_LENGTH := rfl
  omega

/-- On a length-validated buffer the loop runs to completion and the
checksum returns the folded accumulators. -/
theorem calculate_cart_checksum_ok (buffer : List Nat) (h : CHECKSUM_END ≤ buffer.length) :
    calculate_cart_checksum buffer =
      Except.ok
        ((words_fold ((buffer.drop CHECKSUM_START).take CHECKSUM_LENGTH)
            (CHECKSUM_LENGTH / 4) 0 initState).t6 ^^^
          (words_fold ((buffer.drop CHECKSUM_START).take CHECKSUM_LENGTH)
            (CHECKSUM_LENGTH / 4) 0 initState).t4 ^^^
          (words_fold ((buffer.drop CHECKSUM_START).take CHECKSUM_LENGTH)
            (CHECKSUM_LENGTH / 4) 0 initState).t3,
         (words_fold ((buffer.drop CHECKSUM_START).take CHECKSUM_LENGTH)
            (CHECKSUM_LENGTH / 4) 0 initState).t5 ^^^
          (words_fold ((buffer.drop CHECKSUM_START).take CHECKSUM_LENGTH)
            (CHECKSUM_LENGTH / 4) 0 initState).t2 ^^^
          (words_fold ((buffer.drop CHECKSUM_START).take CHECKSUM_LENGTH)
            (CHECKSUM_LENGTH / 4) 0 initState).t1) := by
  unfold calculate_cart_checksum
  rw [if_neg (by omega)]
  rw [checksum_loop_ok _ _ 0 initState
    (by rw [slice_length buffer h]; decide)]

/-- C9: for a length-validated buffer the defensive read-error branch is
unreachable and the checksum always returns a value. -/
theorem claim_C9_no_read_error (buffer : List Nat) (h : CHECKSUM_END ≤ buffer.length) :
    ∃ p : Nat × Nat, calculate_cart_checksum buffer = Except.ok p :=
  ⟨_, calculate_cart_checksum_ok buffer h⟩

/-- Witness for C9 at an all-zero buffer of exactly the window length. -/
theorem claim_C9_no_read_error_witness :
    ∃ p : Nat × Nat, calculate_cart_checksum (List.replicate ROM_LEN 0) = Except.ok p :=
  claim_C9_no_read_error (List.replicate ROM_LEN 0) (by simp [ROM_LEN]; decide)

/-- C6: the checksum fails with `NotLongEnough` exactly on buffers shorter
than the end of the checksum window. -/
theorem claim_C6_not_long_enough (buffer : List Nat) :
    calculate_cart_checksum buffer = Except.error ChecksumError.NotLongEnough ↔
      buffer.length < CHECKSUM_END := by
  constructor
  · intro h
    by_contra hge
    rw [calculate_cart_checksum_ok buffer (by omega)] at h
    exact absurd h (by simp)
  · intro h
    unfold calculate_cart_checksum
    rw [if_pos h]

/-! ## C2: the reference mixing function, written from the specification -/

/-- The `i`-th big-endian 32-bit word of the checksum window
`[4096, 4096 + 0x100000)`, as described by the specification. -/
def spec_word (buffer : List Nat) (i : Nat) : Nat :=
  buffer.getD (4096 + 4 * i) 0 * 0x1000000 + buffer.getD (4096 + 4 * i + 1) 0 * 0x10000 +
    buffer.getD (4096 + 4 * i + 2) 0 * 0x100 + buffer.getD (4096 + 4 * i + 3) 0

/-- The specification's numbered mixing steps 1-8 for a single word `c1`,
with all six accumulators updated modulo `2^32`. -/
def spec_step (s : ChecksumState) (c1 : Nat) : ChecksumState :=
  let k1 := (s.t6 + c1) % 4294967296
  let t4 := if k1 < s.t6 then (s.t4 + 1) % 4294967296 else s.t4
  let t6 := k1
  let t3 := s.t3 ^^^ c1
  let k2 := c1 &&& 0x1f
  let k1' := rotl32 c1 k2
  let t5 := (s.t5 + k1') % 4294967296
  let t2 := if c1 < s.t2 then s.t2 ^^^ k1' else s.t2 ^^^ (t6 ^^^ c1)
  let t1 := (s.t1 + (c1 ^^^ t5)) % 4294967296
  ⟨t1, t2, t3, t4, t5, t6⟩

/-- Processing words `i, i+1, ...` of the window in order, `n` of them. -/
def spec_mix (buffer : List Nat) : Nat → Nat → ChecksumState → ChecksumState
  | 0, _, s => s
  | n + 1, i, s => spec_mix buffer n (i + 1) (spec_step s (spec_word buffer i))

/-- The specification's reference checksum: six accumulators seeded with
`0xF8CA4DDC`, the `0x100000/4` window words mixed in order, and the final
pair `(t6 XOR t4 XOR t3, t5 XOR t2 XOR t1)`. -/
def spec_checksum (buffer : List Nat) : Nat × Nat :=
  let s := spec_mix buffer (0x100000 / 4) 0 initState
  (s.t6 ^^^ s.t4 ^^^ s.t3, s.t5 ^^^ s.t2 ^^^ s.t1)

theorem spec_step_eq_checksum_step : spec_step = checksum_step := rfl

theorem slice_getD (buffer : List Nat) (h : CHECKSUM_END ≤ buffer.length) (j : Nat)
    (hj : j < CHECKSUM_LENGTH) :
    ((buffer.drop CHECKSUM_START).take CHECKSUM_LENGTH).getD j 0 =
      buffer.getD (CHECKSUM_START + j) 0 := by
  simp only [List.getD_eq_getElem?_getD]
  rw [List.getElem?_take_of_lt hj, List.getElem?_drop]

theorem words_fold_eq_spec_mix (buffer : List Nat) (h : CHECKSUM_END ≤ buffer.length) :
    ∀ (n i : Nat) (s : ChecksumState), 4 * (i + n) ≤ CHECKSUM_LENGTH →
      words_fold ((buffer.drop CHECKSUM_START).take CHECKSUM_LENGTH) n (4 * i) s =
        spec_mix buffer n i s := by
  intro n
  induction n with
  | zero => intro i s _; rfl
  | succ m ih =>
    intro i s hb
    have hw : word_at ((buffer.drop CHECKSUM_START).take CHECKSUM_LENGTH) (4 * i) =
        spec_word buffer i := by
      unfold word_at spec_word
      rw [slice_getD buffer h _ (by omega), slice_getD buffer h _ (by omega),
        slice_getD buffer h _ (by omega), slice_getD buffer h _ (by omega)]
      have hs : CHECKSUM_START = 4096 := rfl
      rw [hs]
      ring_nf
    show words_fold _ m (4 * i + 4) _ = _
    have h4 : 4 * i + 4 = 4 * (i + 1) := by ring
    rw [hw, h4, ih (i + 1) _ (by omega)]
    rfl

/-- C2: on every length-validated buffer, `calculate_cart_checksum` returns
exactly the specification's reference mixing function. -/
theorem claim_C2_matches_reference (buffer : List Nat)
    (h : 4096 + 0x100000 ≤ buffer.length) :
    calculate_cart_checksum buffer = Except.ok (spec_checksum buffer) := by
  have h2 : CHECKSUM_END ≤ buffer.length := h
  rw [calculate_cart_checksum_ok buffer h2]
  have h3 := words_fold_eq_spec_mix buffer h2 (CHECKSUM_LENGTH / 4) 0 initState (by decide)
  simp only [Nat.mul_zero] at h3
  rw [h3]
  rfl

/-- Witness for C2 at an all-zero buffer of exactly the window length. -/
theorem claim_C2_matches_reference_witness :
    calculate_cart_checksum (List.replicate ROM_LEN 0) =
      Except.ok (spec_checksum (List.replicate ROM_LEN 0)) :=
  claim_C2_matches_reference (List.replicate ROM_LEN 0) (by simp [ROM_LEN]; decide)

/-! ## Header model -/

structure RomHeader where
  cart_timing : Nat
  clock_rate : Nat
  load_addr : Nat
  release : Nat
  crc1 : Nat
  crc2 : Nat
  rsvd_18 : Nat
  rsvd_1c : Nat
  name : List Nat
  rsvd_34 : Nat
  manuf_id : Nat
  cart_id : Nat
  country_code : Nat
deriving Repr

/-- The bytes emitted by `write_u32::<BigEndian>`. -/
def u32_be_bytes (x : Nat) : List Nat :=
  [x / 0x1000000 % 256, x / 0x10000 % 256, x / 0x100 % 256, x % 256]

/-- The bytes emitted by `write_u16::<BigEndian>`. -/
def u16_be_bytes (x : Nat) : List Nat :=
  [x / 0x100 % 256, x % 256]

/-- `RomHeader::serialize`: the byte sequence written to the sink, each field
in declared order, multi-byte fields big-endian, the name verbatim. -/
def RomHeader.serialize (h : RomHeader) : List Nat :=
  u32_be_bytes h.cart_timing ++ (u32_be_bytes h.clock_rate ++ (u32_be_bytes h.load_addr ++
    (u32_be_bytes h.release ++ (u32_be_bytes h.crc1 ++ (u32_be_bytes h.crc2 ++
    (u32_be_bytes h.rsvd_18 ++ (u32_be_bytes h.rsvd_1c ++ (h.name ++ (u32_be_bytes h.rsvd_34 ++
    (u32_be_bytes h.manuf_id ++ (u16_be_bytes h.cart_id ++ u16_be_bytes h.country_code)))))))))))

/-- `Default::default` for `RomHeader`. -/
def RomHeader.default : RomHeader :=
  ⟨DEFAULT_CART_TIMING, DEFAULT_CLOCK_RATE, 0, 0, 0, 0, 0, 0,
    List.replicate HEADER_NAME_LEN 0, 0, 0, 0, 0⟩

/-- `RomHeader::new`. -/
def RomHeader.new : RomHeader := RomHeader.default

/-- The big-endian `u16` at byte offset `off` of a buffer. -/
def decode_u16_be (l : List Nat) (off : Nat) : Nat :=
  l.getD off 0 * 0x100 + l.getD (off + 1) 0

theorem serialize_drop_32 (h : RomHeader) :
    h.serialize.drop 32 = h.name ++ (u32_be_bytes h.rsvd_34 ++ (u32_be_bytes h.manuf_id ++
      (u16_be_bytes h.cart_id ++ u16_be_bytes h.country_code))) := rfl

theorem serialize_drop_52 (h : RomHeader) (hname : h.name.length = HEADER_NAME_LEN) :
    h.serialize.drop 52 = u32_be_bytes h.rsvd_34 ++ (u32_be_bytes h.manuf_id ++
      (u16_be_bytes h.cart_id ++ u16_be_bytes h.country_code)) := by
  have hname20 : h.name.length = 20 := hname
  have h52 : h.serialize.drop 52 = (h.serialize.drop 32).drop 20 := by
    rw [List.drop_drop]
  rw [h52, serialize_drop_32, List.drop_left' hname20]

/-- C8: the default header serializes to exactly 64 bytes with
`0x80371240`, `0x0000000F` and zeros; in general each field is emitted at
its declared offset in big-endian order. -/
theorem claim_C8_serialize :
    (RomHeader.default.serialize.length = 64 ∧
      word_at RomHeader.default.serialize 0 = 0x80371240 ∧
      word_at RomHeader.default.serialize 4 = 0x0000000F ∧
      (∀ i, i < 64 → 8 ≤ i → RomHeader.default.serialize.getD i 0 = 0)) ∧
    ∀ h : RomHeader, h.name.length = HEADER_NAME_LEN →
      h.cart_timing < 4294967296 → h.clock_rate < 4294967296 → h.load_addr < 4294967296 →
      h.release < 4294967296 → h.crc1 < 4294967296 → h.crc2 < 4294967296 →
      h.rsvd_18 < 4294967296 → h.rsvd_1c < 4294967296 → h.rsvd_34 < 4294967296 →
      h.manuf_id < 4294967296 → h.cart_id < 65536 → h.country_code < 65536 →
      (h.serialize.length = 64 ∧
        word_at h.serialize 0 = h.cart_timing ∧
        word_at h.serialize 4 = h.clock_rate ∧
        word_at h.serialize 8 = h.load_addr ∧
        word_at h.serialize 12 = h.release ∧
        word_at h.serialize 16 = h.crc1 ∧
        word_at h.serialize 20 = h.crc2 ∧
        word_at h.serialize 24 = h.rsvd_18 ∧
        word_at h.serialize 28 = h.rsvd_1c ∧
        (h.serialize.drop 32).take 20 = h.name ∧
        word_at (h.serialize.drop 52) 0 = h.rsvd_34 ∧
        word_at (h.serialize.drop 52) 4 = h.manuf_id ∧
        decode_u16_be (h.serialize.drop 52) 8 = h.cart_id ∧
        decode_u16_be (h.serialize.drop 52) 10 = h.country_code) := by
  constructor
  · exact ⟨by decide, by decide, by decide, by decide⟩
  · intro h hname b1 b2 b3 b4 b5 b6 b7 b8 b9 b10 b11 b12
    refine ⟨?_,
      by rw [show word_at h.serialize 0 = h.cart_timing / 16777216 % 256 * 16777216 +
        h.cart_timing / 65536 % 256 * 65536 + h.cart_timing / 256 % 256 * 256 +
        h.cart_timing % 256 from rfl]; omega,
      by rw [show word_at h.serialize 4 = h.clock_rate / 16777216 % 256 * 16777216 +
        h.clock_rate / 65536 % 256 * 65536 + h.clock_rate / 256 % 256 * 256 +
        h.clock_rate % 256 from rfl]; omega,
      by rw [show word_at h.serialize 8 = h.load_addr / 16777216 % 256 * 16777216 +
        h.load_addr / 65536 % 256 * 65536 + h.load_addr / 256 % 256 * 256 +
        h.load_addr % 256 from rfl]; omega,
      by rw [show word_at h.serialize 12 = h.release / 16777216 % 256 * 16777216 +
        h.release / 65536 % 256 * 65536 + h.release / 256 % 256 * 256 +
        h.release % 256 from rfl]; omega,
      by rw [show word_at h.serialize 16 = h.crc1 / 16777216 % 256 * 16777216 +
        h.crc1 / 65536 % 256 * 65536 + h.crc1 / 256 % 256 * 256 + h.crc1 % 256 from rfl]; omega,
      by rw [show word_at h.serialize 20 = h.crc2 / 16777216 % 256 * 16777216 +
        h.crc2 / 65536 % 256 * 65536 + h.crc2 / 256 % 256 * 256 + h.crc2 % 256 from rfl]; omega,
      by rw [show word_at h.serialize 24 = h.rsvd_18 / 16777216 % 256 * 16777216 +
        h.rsvd_18 / 65536 % 256 * 65536 + h.rsvd_18 / 256 % 256 * 256 +
        h.rsvd_18 % 256 from rfl]; omega,
      by rw [show word_at h.serialize 28 = h.rsvd_1c / 16777216 % 256 * 16777216 +
        h.rsvd_1c / 65536 % 256 * 65536 + h.rsvd_1c / 256 % 256 * 256 +
        h.rsvd_1c % 256 from rfl]; omega,
      ?_, ?_, ?_, ?_, ?_⟩
    · show h.serialize.length = 64
      unfold RomHeader.serialize
      simp [u32_be_bytes, u16_be_bytes, hname, HEADER_NAME_LEN]
    · have hname20 : h.name.length = 20 := hname
      rw [serialize_drop_32, List.take_left' hname20]
    · rw [serialize_drop_52 h hname]
      rw [show word_at (u32_be_bytes h.rsvd_34 ++ (u32_be_bytes h.manuf_id ++
        (u16_be_bytes h.cart_id ++ u16_be_bytes h.country_code))) 0 =
        h.rsvd_34 / 16777216 % 256 * 16777216 + h.rsvd_34 / 65536 % 256 * 65536 +
        h.rsvd_34 / 256 % 256 * 256 + h.rsvd_34 % 256 from rfl]
      omega
    · rw [serialize_drop_52 h hname]
      rw [show word_at (u32_be_bytes h.rsvd_34 ++ (u32_be_bytes h.manuf_id ++
        (u16_be_bytes h.cart_id ++ u16_be_bytes h.country_code))) 4 =
        h.manuf_id / 16777216 % 256 * 16777216 + h.manuf_id / 65536 % 256 * 65536 +
        h.manuf_id / 256 % 256 * 256 + h.manuf_id % 256 from rfl]
      omega
    · rw [serialize_drop_52 h hname]
      rw [show decode_u16_be (u32_be_bytes h.rsvd_34 ++ (u32_be_bytes h.manuf_id ++
        (u16_be_bytes h.cart_id ++ u16_be_bytes h.country_code))) 8 =
        h.cart_id / 256 % 256 * 256 + h.cart_id % 256 from rfl]
      omega
    · rw [serialize_drop_52 h hname]
      rw [show decode_u16_be (u32_be_bytes h.rsvd_34 ++ (u32_be_bytes h.manuf_id ++
        (u16_be_bytes h.cart_id ++ u16_be_bytes h.country_code))) 10 =
        h.country_code / 256 % 256 * 256 + h.country_code % 256 from rfl]
      omega

/-- Witness for C8's general part, instantiated at the default header. -/
theorem claim_C8_serialize_witness :
    RomHeader.default.serialize.length = 64 ∧
      word_at RomHeader.default.serialize 0 = RomHeader.default.cart_timing :=
  have h := claim_C8_serialize.2 RomHeader.default (by decide) (by decide) (by decide)
    (by decide) (by decide) (by decide) (by decide) (by decide) (by decide) (by decide)
    (by decide) (by decide) (by decide)
  ⟨h.1, h.2.1⟩

/-! ## C1: test vectors.  The constant-byte buffers make each loop word
constant, so the accumulators follow closed forms provable by induction;
only one genuinely data-dependent sum is computed by kernel evaluation. -/

/-- Iterating the checksum step with a constant word. -/
def iterate_const (c1 : Nat) : Nat → ChecksumState → ChecksumState
  | 0, s => s
  | n + 1, s => iterate_const c1 n (checksum_step s c1)

theorem iterate_const_succ_right (c1 : Nat) :
    ∀ (n : Nat) (s : ChecksumState),
      iterate_const c1 (n + 1) s = checksum_step (iterate_const c1 n s) c1 := by
  intro n
  induction n with
  | zero => intro s; rfl
  | succ m ih =>
    intro s
    show iterate_const c1 (m + 1) (checksum_step s c1) = _
    rw [ih (checksum_step s c1)]
    rfl

theorem drop_replicate (a : Nat) : ∀ (n m : Nat),
    (List.replicate m a).drop n = List.replicate (m - n) a := by
  intro n
  induction n with
  | zero => intro m; simp
  | succ k ih =>
    intro m
    cases m with
    | zero => simp
    | succ m2 =>
      rw [List.replicate_succ, List.drop_succ_cons, ih m2]
      congr 1
      omega

theorem take_replicate_of_le (a : Nat) : ∀ (n m : Nat), n ≤ m →
    (List.replicate m a).take n = List.replicate n a := by
  intro n
  induction n with
  | zero => intro m _; simp
  | succ k ih =>
    intro m hm
    cases m with
    | zero => omega
    | succ m2 =>
      rw [List.replicate_succ, List.take_succ_cons, ih m2 (by omega), ← List.replicate_succ]

theorem word_at_replicate (L b pos : Nat) (h : pos + 4 ≤ L) :
    word_at (List.replicate L b) pos =
      b * 0x1000000 + b * 0x10000 + b * 0x100 + b := by
  unfold word_at
  simp only [List.getD_eq_getElem?_getD]
  rw [List.getElem?_replicate_of_lt (by omega), List.getElem?_replicate_of_lt (by omega),
    List.getElem?_replicate_of_lt (by omega), List.getElem?_replicate_of_lt (by omega)]
  rfl

theorem words_fold_replicate (L b : Nat) :
    ∀ (n pos : Nat) (s : ChecksumState), pos + 4 * n ≤ L →
      words_fold (List.replicate L b) n pos s =
        iterate_const (b * 0x1000000 + b * 0x10000 + b * 0x100 + b) n s := by
  intro n
  induction n with
  | zero => intro pos s _; rfl
  | succ m ih =>
    intro pos s h
    show words_fold _ m (pos + 4) _ = _
    rw [word_at_replicate L b pos (by omega), ih (pos + 4) _ (by omega)]
    rfl

/-! ### Two bit-level facts used by the closed forms -/

/-- XOR with the all-ones 32-bit word is subtraction from `2^32 - 1`. -/
theorem xor_all_ones (x : Nat) (hx : x < 4294967296) :
    x ^^^ 4294967295 = 4294967295 - x := by
  have h32 : (4294967295 : Nat) = 2 ^ 32 - 1 := by norm_num
  have hx32 : x < 2 ^ 32 := by norm_num at hx ⊢; omega
  apply Nat.eq_of_testBit_eq
  intro i
  rw [Nat.testBit_xor, h32]
  have hsub : 2 ^ 32 - 1 - x = 2 ^ 32 - (x + 1) := by omega
  rw [hsub, Nat.testBit_two_pow_sub_succ hx32, Nat.testBit_two_pow_sub_one]
  by_cases hi : i < 32
  · simp [hi]
  · have hxi : x.testBit i = false :=
      Nat.testBit_lt_two_pow (Nat.lt_of_lt_of_le hx32 (Nat.pow_le_pow_right (by omega) (by omega)))
    simp [hi, hxi]

/-- XOR of an even number with its successor is 1. -/
theorem even_xor_succ (x : Nat) (hx : x % 2 = 0) : x ^^^ (x + 1) = 1 := by
  apply Nat.eq_of_testBit_eq
  intro i
  rw [Nat.testBit_xor]
  cases i with
  | zero =>
    simp only [Nat.testBit_zero]
    have h1 : (x + 1) % 2 = 1 := by omega
    have h0 : (1 : Nat) % 2 = 1 := by norm_num
    simp [hx, h1, h0]
  | succ j =>
    simp only [Nat.testBit_succ]
    have hdiv : (x + 1) / 2 = x / 2 := by omega
    have h12 : (1 : Nat) / 2 = 0 := by norm_num
    rw [hdiv, h12, Bool.xor_self, Nat.zero_testBit]

/-! ### Vector `0x00`: only `t1` changes, by a constant increment -/

theorem step_zero (a : Nat) :
    checksum_step ⟨a, 4174007772, 4174007772, 4174007772, 4174007772, 4174007772⟩ 0 =
      ⟨(a + 4174007772) % 4294967296, 4174007772, 4174007772, 4174007772, 4174007772,
        4174007772⟩ := by
  have h1 : (4174007772 + 0) % 4294967296 = 4174007772 := by norm_num
  have h2 : ¬ (4174007772 < 4174007772) := by norm_num
  have h3 : rotl32 0 (0 &&& 0x1f) = 0 := by decide
  have h3b : rotl32 0 0 = 0 := by decide
  have h4 : (0 : Nat) < 4174007772 := by norm_num
  simp [checksum_step, h1, h2, h3, h3b, h4]

theorem iter_zero : ∀ n : Nat,
    iterate_const 0 n initState =
      ⟨4174007772 * (n + 1) % 4294967296, 4174007772, 4174007772, 4174007772, 4174007772,
        4174007772⟩ := by
  intro n
  induction n with
  | zero => decide
  | succ m ih =>
    rw [iterate_const_succ_right, ih, step_zero]
    simp only [ChecksumState.mk.injEq]
    refine ⟨?_, trivial, trivial, trivial, trivial, trivial⟩
    rw [Nat.mod_add_mod]
    have he : 4174007772 * (m + 1) + 4174007772 = 4174007772 * (m + 1 + 1) := by ring
    rw [he]

/-! ### Vector `0xFF`: every word is the all-ones word -/

/-- `t1` after `n` all-ones words. -/
def ffT1 : Nat → Nat
  | 0 => 4174007772
  | n + 1 => (ffT1 n + (4294967295 ^^^ (4174007772 - (n + 1)))) % 4294967296

/-- `t2` after `n` all-ones words. -/
def ffT2 : Nat → Nat
  | 0 => 4174007772
  | n + 1 => ffT2 n ^^^ ((4174007772 - (n + 1)) ^^^ 4294967295)

theorem ffT2_lt : ∀ n : Nat, ffT2 n < 4294967296
  | 0 => by decide
  | n + 1 => by
    show ffT2 n ^^^ ((4174007772 - (n + 1)) ^^^ 4294967295) < 4294967296
    have e : (4294967296 : Nat) = 2 ^ 32 := by norm_num
    rw [e]
    exact Nat.xor_lt_two_pow (e ▸ ffT2_lt n)
      (Nat.xor_lt_two_pow (by omega) (by norm_num))

theorem step_ff (n a b c : Nat) (hb : b < 4294967296) (hn : n + 1 ≤ 262144) :
    checksum_step ⟨a, b, c, 4174007772 + n, 4174007772 - n, 4174007772 - n⟩ 4294967295 =
      ⟨(a + (4294967295 ^^^ (4174007772 - (n + 1)))) % 4294967296,
        b ^^^ ((4174007772 - (n + 1)) ^^^ 4294967295),
        c ^^^ 4294967295,
        4174007772 + (n + 1),
        4174007772 - (n + 1),
        4174007772 - (n + 1)⟩ := by
  have hk1 : (4174007772 - n + 4294967295) % 4294967296 = 4174007772 - (n + 1) := by omega
  have hklt : 4174007772 - (n + 1) < 4174007772 - n := by omega
  have ht4 : (4174007772 + n + 1) % 4294967296 = 4174007772 + (n + 1) := by omega
  have hrot : rotl32 4294967295 (4294967295 &&& 0x1f) = 4294967295 := by decide
  have hbb : ¬ (4294967295 < b) := by omega
  simp [checksum_step, hk1, hklt, ht4, hrot, hbb]
  all_goals omega

theorem iter_ff : ∀ n : Nat, n ≤ 262144 →
    iterate_const 4294967295 n initState =
      ⟨ffT1 n, ffT2 n, if n % 2 = 0 then 4174007772 else 120959523,
        4174007772 + n, 4174007772 - n, 4174007772 - n⟩ := by
  intro n
  induction n with
  | zero => intro _; decide
  | succ m ih =>
    intro hm
    rw [iterate_const_succ_right, ih (by omega), step_ff m _ _ _ (ffT2_lt m) (by omega)]
    simp only [ChecksumState.mk.injEq]
    refine ⟨rfl, rfl, ?_, trivial, trivial, trivial⟩
    by_cases hp : m % 2 = 0
    · rw [if_pos hp, if_neg (by omega)]
      decide
    · rw [if_neg hp, if_pos (by omega)]
      decide

/-- The per-step XOR contribution `(0xFFFFFFFF XOR (S - i))` equals
`120959523 + i`; its running XOR over `i = 1..n`. -/
def XORAP : Nat → Nat
  | 0 => 0
  | n + 1 => XORAP n ^^^ (120959523 + (n + 1))

/-- Its running sum over `i = 1..n`. -/
def SumAP : Nat → Nat
  | 0 => 0
  | n + 1 => SumAP n + (120959523 + (n + 1))

theorem ffT2_eq : ∀ n : Nat, n ≤ 262144 → ffT2 n = 4174007772 ^^^ XORAP n := by
  intro n
  induction n with
  | zero => intro _; decide
  | succ m ih =>
    intro hm
    show ffT2 m ^^^ ((4174007772 - (m + 1)) ^^^ 4294967295) = _
    rw [xor_all_ones (4174007772 - (m + 1)) (by omega)]
    have he : 4294967295 - (4174007772 - (m + 1)) = 120959523 + (m + 1) := by omega
    rw [he, ih (by omega), Nat.xor_assoc]
    rfl

theorem ffT1_eq : ∀ n : Nat, n ≤ 262144 → ffT1 n = (4174007772 + SumAP n) % 4294967296 := by
  intro n
  induction n with
  | zero => intro _; decide
  | succ m ih =>
    intro hm
    show (ffT1 m + (4294967295 ^^^ (4174007772 - (m + 1)))) % 4294967296 = _
    rw [Nat.xor_comm, xor_all_ones (4174007772 - (m + 1)) (by omega)]
    have he : 4294967295 - (4174007772 - (m + 1)) = 120959523 + (m + 1) := by omega
    rw [he, ih (by omega), Nat.mod_add_mod]
    show (4174007772 + SumAP m + (120959523 + (m + 1))) % 4294967296 = _
    rw [Nat.add_assoc]
    rfl

theorem XORAP_four : ∀ j : Nat, XORAP (4 * j) = 0 := by
  intro j
  induction j with
  | zero => rfl
  | succ k ih =>
    have e : 4 * (k + 1) = 4 * k + 1 + 1 + 1 + 1 := by ring
    rw [e]
    show XORAP (4 * k + 1 + 1 + 1) ^^^ _ = 0
    show XORAP (4 * k + 1 + 1) ^^^ _ ^^^ _ = 0
    show XORAP (4 * k + 1) ^^^ _ ^^^ _ ^^^ _ = 0
    show XORAP (4 * k) ^^^ _ ^^^ _ ^^^ _ ^^^ _ = 0
    rw [ih, Nat.zero_xor]
    have p1 : (120959523 + (4 * k + 1)) ^^^ (120959523 + (4 * k + 1 + 1)) = 1 := by
      have hw : 120959523 + (4 * k + 1 + 1) = (120959523 + (4 * k + 1)) + 1 := by ring
      rw [hw]
      exact even_xor_succ _ (by omega)
    have p2 : (120959523 + (4 * k + 1 + 1 + 1)) ^^^ (120959523 + (4 * k + 1 + 1 + 1 + 1)) = 1 := by
      have hw : 120959523 + (4 * k + 1 + 1 + 1 + 1) = (120959523 + (4 * k + 1 + 1 + 1)) + 1 := by
        ring
      rw [hw]
      exact even_xor_succ _ (by omega)
    rw [p1, Nat.xor_assoc, p2]
    decide

theorem SumAP_closed : ∀ n : Nat, 2 * SumAP n = n * (2 * 120959523 + n + 1) := by
  intro n
  induction n with
  | zero => rfl
  | succ k ih =>
    show 2 * (SumAP k + (120959523 + (k + 1))) = _
    rw [Nat.mul_add, ih]
    ring

theorem ffT2_val : ffT2 262144 = 4174007772 := by
  rw [ffT2_eq 262144 (by omega)]
  have e : (262144 : Nat) = 4 * 65536 := by norm_num
  rw [e, XORAP_four, Nat.xor_zero]

theorem ffT1_val : ffT1 262144 = 3243789788 := by
  rw [ffT1_eq 262144 (by omega)]
  have h2 := SumAP_closed 262144
  norm_num at h2
  have h3 : SumAP 262144 = 31743173066752 := by omega
  rw [h3]

/-! ### Vector `0x41`: word `0x41414141`, rotation amount 1 -/

/-- `t1` after `n` words `0x41414141`; `t5` follows the closed form
`(S + n * 0x82828282) mod 2^32`. -/
def t141 : Nat → Nat
  | 0 => 4174007772
  | n + 1 => (t141 n + (1094795585 ^^^ ((4174007772 + (n + 1) * 2189591170) % 4294967296))) %
      4294967296

theorem t141_lt : ∀ n : Nat, t141 n < 4294967296
  | 0 => by decide
  | n + 1 => Nat.mod_lt _ (by norm_num)

theorem step_41 (n a c t2v : Nat) (hn : n + 1 ≤ 262144)
    (ht2 : t2v = 4174007772 ∨ t2v = 2051592030) :
    checksum_step ⟨a, t2v, c,
        4174007772 + (4174007772 + n * 1094795585) / 4294967296,
        (4174007772 + n * 2189591170) % 4294967296,
        (4174007772 + n * 1094795585) % 4294967296⟩ 1094795585 =
      ⟨(a + (1094795585 ^^^ ((4174007772 + (n + 1) * 2189591170) % 4294967296))) % 4294967296,
        t2v ^^^ 2189591170,
        c ^^^ 1094795585,
        4174007772 + (4174007772 + (n + 1) * 1094795585) / 4294967296,
        (4174007772 + (n + 1) * 2189591170) % 4294967296,
        (4174007772 + (n + 1) * 1094795585) % 4294967296⟩ := by
  have hrot : rotl32 1094795585 (1094795585 &&& 0x1f) = 2189591170 := by decide
  have hk1 : ((4174007772 + n * 1094795585) % 4294967296 + 1094795585) % 4294967296 =
      (4174007772 + (n + 1) * 1094795585) % 4294967296 := by omega
  have ht5 : ((4174007772 + n * 2189591170) % 4294967296 + 2189591170) % 4294967296 =
      (4174007772 + (n + 1) * 2189591170) % 4294967296 := by omega
  have ht2lt : 1094795585 < t2v := by
    rcases ht2 with rfl | rfl <;> norm_num
  by_cases hc : (4174007772 + (n + 1) * 1094795585) % 4294967296 <
      (4174007772 + n * 1094795585) % 4294967296
  · have hcarry : (4174007772 + (n + 1) * 1094795585) / 4294967296 =
        (4174007772 + n * 1094795585) / 4294967296 + 1 := by omega
    have hdb : (4174007772 + n * 1094795585) / 4294967296 ≤ 66822 := by omega
    have ht4 : (4174007772 + (4174007772 + n * 1094795585) / 4294967296 + 1) % 4294967296 =
        4174007772 + (4174007772 + (n + 1) * 1094795585) / 4294967296 := by
      rw [hcarry, Nat.mod_eq_of_lt (by omega)]
      omega
    simp [checksum_step, hk1, ht5, hrot, hc, ht4, ht2lt]
  · have hcarry : (4174007772 + (n + 1) * 1094795585) / 4294967296 =
        (4174007772 + n * 1094795585) / 4294967296 := by omega
    have ht4 : 4174007772 + (4174007772 + n * 1094795585) / 4294967296 =
        4174007772 + (4174007772 + (n + 1) * 1094795585) / 4294967296 := by
      rw [hcarry]
    simp [checksum_step, hk1, ht5, hrot, hc, ht4, ht2lt]

theorem iter_41 : ∀ n : Nat, n ≤ 262144 →
    iterate_const 1094795585 n initState =
      ⟨t141 n, if n % 2 = 0 then 4174007772 else 2051592030,
        if n % 2 = 0 then 4174007772 else 3112897693,
        4174007772 + (4174007772 + n * 1094795585) / 4294967296,
        (4174007772 + n * 2189591170) % 4294967296,
        (4174007772 + n * 1094795585) % 4294967296⟩ := by
  intro n
  induction n with
  | zero => intro _; decide
  | succ m ih =>
    intro hm
    rw [iterate_const_succ_right, ih (by omega)]
    by_cases hp : m % 2 = 0
    · rw [if_pos hp, if_pos hp, step_41 m _ _ _ (by omega) (Or.inl rfl),
        if_neg (show ¬ (m + 1) % 2 = 0 by omega), if_neg (show ¬ (m + 1) % 2 = 0 by omega)]
      simp only [ChecksumState.mk.injEq]
      refine ⟨?_, ?_, ?_, ?_, ?_, ?_⟩ <;> first | trivial | decide
    · rw [if_neg hp, if_neg hp, step_41 m _ _ _ (by omega) (Or.inr rfl),
        if_pos (show (m + 1) % 2 = 0 by omega), if_pos (show (m + 1) % 2 = 0 by omega)]
      simp only [ChecksumState.mk.injEq]
      refine ⟨?_, ?_, ?_, ?_, ?_, ?_⟩ <;> first | trivial | decide

/-! The value `t141 262144` is computed by kernel evaluation of a packed
two-accumulator loop, four steps per iteration, in chunks. -/

/-- One step of the packed `(t1, t5)` loop for the `0x41` vector. -/
def fastStep (s : Nat) : Nat :=
  let t1 := s % 4294967296
  let t5 := s / 4294967296
  let t5n := (t5 + 2189591170) % 4294967296
  let t1n := (t1 + (1094795585 ^^^ t5n)) % 4294967296
  t1n + t5n * 4294967296

/-- `4*n` packed steps, with the state forced at every iteration so that
kernel evaluation stays shallow. -/
def fast41 (n : Nat) (s : Nat) : Nat :=
  @Nat.rec (fun _ => Nat → Nat) (fun s => s)
    (fun _ ih s => cond (s == 0)
      (ih (fastStep (fastStep (fastStep (fastStep s)))))
      (ih (fastStep (fastStep (fastStep (fastStep s))))))
    n s

theorem fast41_zero (s : Nat) : fast41 0 s = s := rfl

theorem fast41_succ (n s : Nat) :
    fast41 (n + 1) s = fast41 n (fastStep (fastStep (fastStep (fastStep s)))) := by
  show cond (s == 0) _ _ = _
  rw [Bool.cond_self]
  rfl

theorem fast41_add (a : Nat) : ∀ (b s : Nat), fast41 (a + b) s = fast41 b (fast41 a s) := by
  induction a with
  | zero =>
    intro b s
    rw [Nat.zero_add, fast41_zero]
  | succ k ih =>
    intro b s
    have e : k + 1 + b = (k + b) + 1 := by ring
    rw [e, fast41_succ, ih b, ← fast41_succ]

theorem fastStep_pack (m : Nat) :
    fastStep (t141 m + (4174007772 + m * 2189591170) % 4294967296 * 4294967296) =
      t141 (m + 1) + (4174007772 + (m + 1) * 2189591170) % 4294967296 * 4294967296 := by
  have hlt := t141_lt m
  have h1 : (t141 m + (4174007772 + m * 2189591170) % 4294967296 * 4294967296) % 4294967296 =
      t141 m := by omega
  have h2 : (t141 m + (4174007772 + m * 2189591170) % 4294967296 * 4294967296) / 4294967296 =
      (4174007772 + m * 2189591170) % 4294967296 := by omega
  have h3 : ((4174007772 + m * 2189591170) % 4294967296 + 2189591170) % 4294967296 =
      (4174007772 + (m + 1) * 2189591170) % 4294967296 := by omega
  simp only [fastStep]
  rw [h1, h2, h3]
  rfl

theorem fast41_pack : ∀ (j m : Nat),
    fast41 j (t141 m + (4174007772 + m * 2189591170) % 4294967296 * 4294967296) =
      t141 (m + 4 * j) + (4174007772 + (m + 4 * j) * 2189591170) % 4294967296 * 4294967296 := by
  intro j
  induction j with
  | zero =>
    intro m
    rw [fast41_zero]
    simp
  | succ k ih =>
    intro m
    rw [fast41_succ, fastStep_pack m, fastStep_pack (m + 1), fastStep_pack (m + 1 + 1),
      fastStep_pack (m + 1 + 1 + 1), ih (m + 1 + 1 + 1 + 1)]
    have e : m + 1 + 1 + 1 + 1 + 4 * k = m + 4 * (k + 1) := by ring
    rw [e]

/-! Kernel evaluation of the packed loop, 16384 steps (4096 iterations) at a
time. -/
set_option maxRecDepth 200000 in
theorem fast41_chunk_0 : fast41 4096 17927226878163832284 = 11054874581603700188 := by decide

set_option maxRecDepth 200000 in
theorem fast41_chunk_1 : fast41 4096 11054874581603700188 = 4182522289953918428 := by decide

set_option maxRecDepth 200000 in
theorem fast41_chunk_2 : fast41 4096 4182522289953918428 = 15756914068658114012 := by decide

set_option maxRecDepth 200000 in
theorem fast41_chunk_3 : fast41 4096 15756914068658114012 = 8884561774320831964 := by decide

set_option maxRecDepth 200000 in
theorem fast41_chunk_4 : fast41 4096 8884561774320831964 = 2012209480453443036 := by decide

set_option maxRecDepth 200000 in
theorem fast41_chunk_5 : fast41 4096 2012209480453443036 = 13586601258805448156 := by decide

set_option maxRecDepth 200000 in
theorem fast41_chunk_6 : fast41 4096 13586601258805448156 = 6714248968271220188 := by decide

set_option maxRecDepth 200000 in
theorem fast41_chunk_7 : fast41 4096 6714248968271220188 = 18288640745487617500 := by decide

set_option maxRecDepth 200000 in
theorem fast41_chunk_8 : fast41 4096 18288640745487617500 = 11416288451653783004 := by decide

set_option maxRecDepth 200000 in
theorem fast41_chunk_9 : fast41 4096 11416288451653783004 = 4543936158418554332 := by decide

set_option maxRecDepth 200000 in
theorem fast41_chunk_10 : fast41 4096 4543936158418554332 = 16118327937298910684 := by decide

set_option maxRecDepth 200000 in
theorem fast41_chunk_11 : fast41 4096 16118327937298910684 = 9245975644119256540 := by decide

set_option maxRecDepth 200000 in
theorem fast41_chunk_12 : fast41 4096 9245975644119256540 = 2373623351854091740 := by decide

set_option maxRecDepth 200000 in
theorem fast41_chunk_13 : fast41 4096 2373623351854091740 = 13948015131682491868 := by decide

set_option maxRecDepth 200000 in
theorem fast41_chunk_14 : fast41 4096 13948015131682491868 = 7075662838455520732 := by decide

set_option maxRecDepth 200000 in
theorem fast41_chunk_15 : fast41 4096 7075662838455520732 = 203310541400329692 := by decide

theorem fast41_total : fast41 65536 17927226878163832284 = 203310541400329692 := by
  have s1 : fast41 4096 17927226878163832284 = 11054874581603700188 := fast41_chunk_0
  have s2 : fast41 8192 17927226878163832284 = 4182522289953918428 := by
    rw [show (8192 : Nat) = 4096 + 4096 from by norm_num, fast41_add,
      s1, fast41_chunk_1]
  have s3 : fast41 12288 17927226878163832284 = 15756914068658114012 := by
    rw [show (12288 : Nat) = 8192 + 4096 from by norm_num, fast41_add,
      s2, fast41_chunk_2]
  have s4 : fast41 16384 17927226878163832284 = 8884561774320831964 := by
    rw [show (16384 : Nat) = 12288 + 4096 from by norm_num, fast41_add,
      s3, fast41_chunk_3]
  have s5 : fast41 20480 17927226878163832284 = 2012209480453443036 := by
    rw [show (20480 : Nat) = 16384 + 4096 from by norm_num, fast41_add,
      s4, fast41_chunk_4]
  have s6 : fast41 24576 17927226878163832284 = 13586601258805448156 := by
    rw [show (24576 : Nat) = 20480 + 4096 from by norm_num, fast41_add,
      s5, fast41_chunk_5]
  have s7 : fast41 28672 17927226878163832284 = 6714248968271220188 := by
    rw [show (28672 : Nat) = 24576 + 4096 from by norm_num, fast41_add,
      s6, fast41_chunk_6]
  have s8 : fast41 32768 17927226878163832284 = 18288640745487617500 := by
    rw [show (32768 : Nat) = 28672 + 4096 from by norm_num, fast41_add,
      s7, fast41_chunk_7]
  have s9 : fast41 36864 17927226878163832284 = 11416288451653783004 := by
    rw [show (36864 : Nat) = 32768 + 4096 from by norm_num, fast41_add,
      s8, fast41_chunk_8]
  have s10 : fast41 40960 17927226878163832284 = 4543936158418554332 := by
    rw [show (40960 : Nat) = 36864 + 4096 from by norm_num, fast41_add,
      s9, fast41_chunk_9]
  have s11 : fast41 45056 17927226878163832284 = 16118327937298910684 := by
    rw [show (45056 : Nat) = 40960 + 4096 from by norm_num, fast41_add,
      s10, fast41_chunk_10]
  have s12 : fast41 49152 17927226878163832284 = 9245975644119256540 := by
    rw [show (49152 : Nat) = 45056 + 4096 from by norm_num, fast41_add,
      s11, fast41_chunk_11]
  have s13 : fast41 53248 17927226878163832284 = 2373623351854091740 := by
    rw [show (53248 : Nat) = 49152 + 4096 from by norm_num, fast41_add,
      s12, fast41_chunk_12]
  have s14 : fast41 57344 17927226878163832284 = 13948015131682491868 := by
    rw [show (57344 : Nat) = 53248 + 4096 from by norm_num, fast41_add,
      s13, fast41_chunk_13]
  have s15 : fast41 61440 17927226878163832284 = 7075662838455520732 := by
    rw [show (61440 : Nat) = 57344 + 4096 from by norm_num, fast41_add,
      s14, fast41_chunk_14]
  have s16 : fast41 65536 17927226878163832284 = 203310541400329692 := by
    rw [show (65536 : Nat) = 61440 + 4096 from by norm_num, fast41_add,
      s15, fast41_chunk_15]
  exact s16

theorem t141_val : t141 262144 = 927092188 := by
  have hp := fast41_pack 65536 0
  have e0 : t141 0 + (4174007772 + 0 * 2189591170) % 4294967296 * 4294967296 =
      17927226878163832284 := by norm_num [t141]
  rw [e0, fast41_total] at hp
  norm_num at hp
  omega

/-! ### Assembling the three test vectors -/

theorem checksum_replicate (b : Nat) :
    calculate_cart_checksum (List.replicate (4096 + 0x100000) b) =
      Except.ok
        ((iterate_const (b * 0x1000000 + b * 0x10000 + b * 0x100 + b) 262144 initState).t6 ^^^
          (iterate_const (b * 0x1000000 + b * 0x10000 + b * 0x100 + b) 262144 initState).t4 ^^^
          (iterate_const (b * 0x1000000 + b * 0x10000 + b * 0x100 + b) 262144 initState).t3,
         (iterate_const (b * 0x1000000 + b * 0x10000 + b * 0x100 + b) 262144 initState).t5 ^^^
          (iterate_const (b * 0x1000000 + b * 0x10000 + b * 0x100 + b) 262144 initState).t2 ^^^
          (iterate_const (b * 0x1000000 + b * 0x10000 + b * 0x100 + b) 262144 initState).t1) := by
  have hlen : CHECKSUM_END ≤ (List.replicate (4096 + 0x100000) b).length := by
    rw [List.length_replicate]
    decide
  rw [calculate_cart_checksum_ok _ hlen]
  have hslice : ((List.replicate (4096 + 0x100000) b).drop CHECKSUM_START).take CHECKSUM_LENGTH =
      List.replicate CHECKSUM_LENGTH b := by
    rw [drop_replicate, take_replicate_of_le b CHECKSUM_LENGTH _ (by decide)]
  rw [hslice,
    words_fold_replicate CHECKSUM_LENGTH b (CHECKSUM_LENGTH / 4) 0 initState (by decide),
    show CHECKSUM_LENGTH / 4 = 262144 from rfl]

theorem checksum_vector_00 :
    calculate_cart_checksum (List.replicate (4096 + 0x100000) 0x00) =
      Except.ok (0xF8CA4DDC, 0x303A4DDC) := by
  rw [checksum_replicate 0,
    show (0 : Nat) * 0x1000000 + 0 * 0x10000 + 0 * 0x100 + 0 = 0 from by norm_num,
    iter_zero 262144]
  rfl

theorem checksum_vector_ff :
    calculate_cart_checksum (List.replicate (4096 + 0x100000) 0xFF) =
      Except.ok (0xF8C24DDC, 0xC1544DDC) := by
  rw [checksum_replicate 0xFF,
    show (0xFF : Nat) * 0x1000000 + 0xFF * 0x10000 + 0xFF * 0x100 + 0xFF = 4294967295 from by
      norm_num,
    iter_ff 262144 (by norm_num), ffT1_val, ffT2_val]
  rfl

theorem checksum_vector_41 :
    calculate_cart_checksum (List.replicate (4096 + 0x100000) 0x41) =
      Except.ok (0xFDCF52E1, 0xCD5A4DDC) := by
  rw [checksum_replicate 0x41,
    show (0x41 : Nat) * 0x1000000 + 0x41 * 0x10000 + 0x41 * 0x100 + 0x41 = 1094795585 from by
      norm_num,
    iter_41 262144 (by norm_num), t141_val]
  rfl

/-- C1: the three published test vectors of `calculate_cart_checksum` on
buffers of exactly `4096 + 0x100000` constant bytes. -/
theorem claim_C1_test_vectors :
    calculate_cart_checksum (List.replicate (4096 + 0x100000) 0x00) =
      Except.ok (0xF8CA4DDC, 0x303A4DDC) ∧
    calculate_cart_checksum (List.replicate (4096 + 0x100000) 0xFF) =
      Except.ok (0xF8C24DDC, 0xC1544DDC) ∧
    calculate_cart_checksum (List.replicate (4096 + 0x100000) 0x41) =
      Except.ok (0xFDCF52E1, 0xCD5A4DDC) :=
  ⟨checksum_vector_00, checksum_vector_ff, checksum_vector_41⟩
